import Mathlib

/-!
Verification of the vibe-mate routing/proxy engine and credential lifecycle
manager against its specification.  The definitions below are shallow
embeddings of the Rust source under src-tauri/src: pure functions are
translated directly, stateful code is made explicit state passing, and
fallible code returns Except/Option.  External effects (HTTP, file system,
random generation) appear as explicit parameters.
-/

namespace VibeMate

/-! ### Glob pattern matching

Embedding of the glob crate (glob 0.3) as consumed by
services/proxy.rs: Pattern::new and Pattern::matches with the default
MatchOptions.  Pattern text is parsed to a token list; parsing fails for
malformed wildcard runs, malformed recursive wildcards, and unclosed
character classes, exactly as in the crate. -/

inductive CharSpecifier
  | singleChar (c : Char)
  | charRange (lo hi : Char)
deriving DecidableEq, Repr

inductive PatternToken
  | char (c : Char)
  | anyChar
  | anySequence
  | anyRecursiveSequence
  | anyWithin (specifiers : List CharSpecifier)
  | anyExcept (specifiers : List CharSpecifier)
deriving DecidableEq, Repr

/-- The three fields of glob MatchOptions. -/
structure MatchOptions where
  case_sensitive : Bool
  require_literal_separator : Bool
  require_literal_leading_dot : Bool
deriving DecidableEq, Repr

/-- MatchOptions::new: case sensitive, no literal-separator or leading-dot
requirement.  Pattern::matches always uses these defaults. -/
def MatchOptions.new : MatchOptions :=
  { case_sensitive := true
    require_literal_separator := false
    require_literal_leading_dot := false }

def errorWildcards : String :=
  "wildcards are either regular `*` or recursive `**`"

def errorRecursiveWildcards : String :=
  "recursive wildcards must form a single path component"

def errorInvalidRange : String :=
  "invalid range pattern"

/-- glob parse_char_specifiers: a `-` with a character on both sides forms a
range, every other character is a single-character specifier. -/
def parse_char_specifiers : List Char → List CharSpecifier
  | [] => []
  | a :: b :: c :: rest =>
      if b == '-' then .charRange a c :: parse_char_specifiers rest
      else .singleChar a :: parse_char_specifiers (b :: c :: rest)
  | a :: rest => .singleChar a :: parse_char_specifiers rest

/-- Collapse consecutive recursive wildcards: the crate only pushes a new
AnyRecursiveSequence when the token list does not already have more than one
token ending in one (tokens are accumulated here in reverse). -/
def pushRecursive (acc : List PatternToken) : List PatternToken :=
  if acc.length > 1 && acc.head? == some .anyRecursiveSequence then acc
  else .anyRecursiveSequence :: acc

/-- The parsing loop of glob Pattern::new.  `chars` is the unread input,
`prev` the character just before it (None at the start), `acc` the tokens
parsed so far in reverse, `pos` the current index; errors carry the index
and message of the crate. -/
def parse_tokens : List Char → Option Char → List PatternToken → Nat →
    Except (Nat × String) (List PatternToken)
  | [], _, acc, _ => .ok acc.reverse
  | '?' :: rest, _, acc, pos =>
      parse_tokens rest (some '?') (.anyChar :: acc) (pos + 1)
  | '*' :: '*' :: '*' :: _, _, _, pos => .error (pos + 2, errorWildcards)
  | '*' :: '*' :: rest1, prev, acc, pos =>
      if prev == none || prev == some '/' then
        match rest1 with
        | '/' :: rest2 =>
            parse_tokens rest2 (some '/') (pushRecursive acc) (pos + 3)
        | [] => parse_tokens [] (some '*') (pushRecursive acc) (pos + 2)
        | _ => .error (pos + 2, errorRecursiveWildcards)
      else
        .error (pos - 1, errorRecursiveWildcards)
  | '*' :: rest, _, acc, pos =>
      parse_tokens rest (some '*') (.anySequence :: acc) (pos + 1)
  | '[' :: '!' :: spec1, _, acc, pos =>
      if spec1.length ≥ 2 then
        match (spec1.drop 1).findIdx? (fun c => c == ']') with
        | some j =>
            let specifiers := parse_char_specifiers (spec1.take (j + 1))
            parse_tokens (spec1.drop (j + 2)) (some ']')
              (.anyExcept specifiers :: acc) (pos + j + 4)
        | none => .error (pos, errorInvalidRange)
      else .error (pos, errorInvalidRange)
  | '[' :: rest, _, acc, pos =>
      if rest.length ≥ 2 then
        match (rest.drop 1).findIdx? (fun c => c == ']') with
        | some j =>
            let specifiers := parse_char_specifiers (rest.take (j + 1))
            parse_tokens (rest.drop (j + 2)) (some ']')
              (.anyWithin specifiers :: acc) (pos + j + 3)
        | none => .error (pos, errorInvalidRange)
      else .error (pos, errorInvalidRange)
  | c :: rest, _, acc, pos =>
      parse_tokens rest (some c) (.char c :: acc) (pos + 1)
termination_by chars _ _ _ => chars.length
decreasing_by
  all_goals simp_all [List.length_drop]
  all_goals omega

structure GlobPattern where
  tokens : List PatternToken
deriving DecidableEq, Repr

/-- glob Pattern::new. -/
def Pattern_new (pattern : String) : Except (Nat × String) GlobPattern :=
  (parse_tokens pattern.data none [] 0).map GlobPattern.mk

def is_ascii (c : Char) : Bool := c.toNat < 128

def to_ascii_lowercase (c : Char) : Char :=
  if 'A' ≤ c && c ≤ 'Z' then Char.ofNat (c.toNat + 32) else c

def to_ascii_uppercase (c : Char) : Char :=
  if 'a' ≤ c && c ≤ 'z' then Char.ofNat (c.toNat - 32) else c

/-- glob chars_eq on a non-Windows target. -/
def chars_eq (a b : Char) (case_sensitive : Bool) : Bool :=
  if !case_sensitive && is_ascii a && is_ascii b then
    to_ascii_lowercase a == to_ascii_lowercase b
  else a == b

/-- glob in_char_specifiers. -/
def in_char_specifiers (specifiers : List CharSpecifier) (c : Char)
    (options : MatchOptions) : Bool :=
  specifiers.any fun s =>
    match s with
    | .singleChar sc =>
        if options.case_sensitive then c == sc
        else to_ascii_lowercase c == to_ascii_lowercase sc
    | .charRange lo hi =>
        (if !options.case_sensitive && is_ascii c && is_ascii lo && is_ascii hi
         then
           let lo1 := to_ascii_lowercase lo
           let hi1 := to_ascii_lowercase hi
           let lo_up := to_ascii_uppercase lo1
           let hi_up := to_ascii_uppercase hi1
           if lo1 != lo_up && hi1 != hi_up then
             let c1 := to_ascii_lowercase c
             lo1 ≤ c1 && c1 ≤ hi1
           else false
         else false)
        || (lo ≤ c && c ≤ hi)

inductive MatchResult
  | Match
  | SubPatternDoesntMatch
  | EntirePatternDoesntMatch
deriving DecidableEq, Repr

mutual

/-- glob Pattern::matches_from: the for-loop over the remaining tokens.
`seq_loop` below is the inner while-loop of the AnySequence and
AnyRecursiveSequence cases; falling out of that loop with the input
exhausted continues the token loop, which is the `seq_loop` base case. -/
def matches_from (options : MatchOptions) (follows_separator : Bool)
    (file : List Char) (tokens : List PatternToken) : MatchResult :=
  match tokens with
  | [] => if file.isEmpty then .Match else .SubPatternDoesntMatch
  | token :: rest =>
    match token with
    | .anySequence | .anyRecursiveSequence =>
        match matches_from options follows_separator file rest with
        | .SubPatternDoesntMatch =>
            seq_loop options token rest follows_separator file
        | m => m
    | _ =>
        match file with
        | [] => .EntirePatternDoesntMatch
        | c :: cs =>
            let is_sep := c == '/'
            let ok : Bool :=
              match token with
              | .anyChar | .anyWithin _ | .anyExcept _ =>
                  if (options.require_literal_separator && is_sep) ||
                      (follows_separator &&
                        options.require_literal_leading_dot && c == '.') then
                    false
                  else
                    match token with
                    | .anyWithin specifiers =>
                        in_char_specifiers specifiers c options
                    | .anyExcept specifiers =>
                        !(in_char_specifiers specifiers c options)
                    | _ => true
              | .char c2 => chars_eq c c2 options.case_sensitive
              | _ => true
            if ok then matches_from options is_sep cs rest
            else .SubPatternDoesntMatch
termination_by (file.length, 2 * tokens.length)

/-- The while-loop of the wildcard cases of matches_from: consume one input
character at a time and retry the rest of the pattern. -/
def seq_loop (options : MatchOptions) (token : PatternToken)
    (rest : List PatternToken) (follows_separator : Bool)
    (file : List Char) : MatchResult :=
  match file with
  | [] => matches_from options follows_separator [] rest
  | c :: cs =>
      if follows_separator && options.require_literal_leading_dot && c == '.'
      then .SubPatternDoesntMatch
      else
        let fs := c == '/'
        if token == .anyRecursiveSequence && !fs then
          seq_loop options token rest fs cs
        else if token == .anySequence &&
            options.require_literal_separator && fs then
          .SubPatternDoesntMatch
        else
          match matches_from options fs cs rest with
          | .SubPatternDoesntMatch => seq_loop options token rest fs cs
          | m => m
termination_by (file.length, 2 * rest.length + 1)

end

/-- glob Pattern::matches: match against the whole input with the default
options, starting in follows-separator state. -/
def GlobPattern.mtch (p : GlobPattern) (s : String) : Bool :=
  match matches_from MatchOptions.new true s.data p.tokens with
  | .Match => true
  | _ => false

/-- proxy.rs matches_pattern: an invalid pattern matches nothing. -/
def matches_pattern (pattern model_name : String) : Bool :=
  match Pattern_new pattern with
  | .ok p => p.mtch model_name
  | .error _ => false

/-! ### Data model (models/provider.rs, models/routing_rule.rs,
models/config.rs)

Only the fields the routing engine and the auth service read are
carried.  In models/provider.rs the api_base_url and api_key fields are
declared optional, but services/proxy.rs consumes them directly as
strings; they are embedded as strings accordingly. -/

inductive RuleType
  | path
  | model
deriving DecidableEq, BEq, Repr

inductive ApiGroup
  | openai
  | anthropic
  | generic
deriving DecidableEq, BEq, Repr

inductive AgentProviderType
  | codex
  | claudeCode
  | geminiCli
  | antigravity
deriving DecidableEq, BEq, Repr

inductive ModelProviderType
  | openai
  | anthropic
  | google
  | openrouter
  | custom
deriving DecidableEq, BEq, Repr

inductive ProviderType
  | model (t : ModelProviderType)
  | agent (t : AgentProviderType)
deriving DecidableEq, BEq, Repr

structure Provider where
  id : String
  name : String
  provider_type : ProviderType
  api_base_url : String
  api_key : String
  is_default : Bool
deriving DecidableEq, Repr

structure RoutingRule where
  id : String
  rule_type : RuleType
  api_group : ApiGroup
  provider_id : String
  match_pattern : String
  model_rewrite : Option String
  priority : Int
  enabled : Bool
deriving DecidableEq, Repr

structure VibeMateConfig where
  providers : List Provider
  routing_rules : List RoutingRule
deriving DecidableEq, Repr

/-! ### String helpers

The Rust string operations used by the handlers, over the character
list underlying a Lean string.  The sliced prefixes and suffixes in the
source are ASCII, so byte indexing and character indexing agree. -/

def starts_with_l : List Char → List Char → Bool
  | _, [] => true
  | [], _ :: _ => false
  | c :: cs, p :: ps => p == c && starts_with_l cs ps

/-- Rust str::starts_with. -/
def str_starts_with (s pre : String) : Bool :=
  starts_with_l s.data pre.data

/-- Rust str::ends_with. -/
def str_ends_with (s suffix : String) : Bool :=
  starts_with_l s.data.reverse suffix.data.reverse

/-- Rust byte slicing s[n..] on an ASCII prefix. -/
def str_drop (s : String) (n : Nat) : String :=
  ⟨s.data.drop n⟩

/-- Rust str::trim_end_matches with a slash argument. -/
def trim_end_slashes (s : String) : String :=
  ⟨(s.data.reverse.dropWhile (fun c => c == '/')).reverse⟩

/-- Whether the first list occurs as a contiguous run inside the
second. -/
def is_sub_l (needle : List Char) : List Char → Bool
  | [] => needle.isEmpty
  | c :: tl => starts_with_l (c :: tl) needle || is_sub_l needle tl

/-- Rust full_path.strip_prefix(p).unwrap_or(&full_path), as used by the
three proxy handlers to derive the forwarded path. -/
def strip_group_pre (group_pre full_path : String) : String :=
  if str_starts_with full_path group_pre then
    str_drop full_path group_pre.data.length
  else full_path

/-! ### Routing resolution (services/proxy.rs) -/

/-- The sort key relation of the generic-group path-rule sort: the pair
(match_pattern == "/api/*", priority) ordered lexicographically, so the
literal catch-all pattern sorts last. -/
abbrev generic_path_le (a b : RoutingRule) : Prop :=
  ((a.match_pattern == "/api/*") = false ∧ (b.match_pattern == "/api/*") = true)
  ∨ ((a.match_pattern == "/api/*") = (b.match_pattern == "/api/*")
      ∧ a.priority ≤ b.priority)

/-- Rust Vec::sort_by_key is a stable sort; a stable sort of a list by a
total preorder is unique, so insertion sort computes the same list. -/
abbrev sort_by_priority (rules : List RoutingRule) : List RoutingRule :=
  List.insertionSort (fun a b => a.priority ≤ b.priority) rules

/-- proxy.rs match_rule_for_group: model rules of the group in priority
order first (when a model name is present), then path rules, with the
generic catch-all forced last. -/
def match_rule_for_group (rules : List RoutingRule) (api_group : ApiGroup)
    (request_path : String) (model_name : Option String) :
    Option RoutingRule :=
  let model_rules := sort_by_priority (rules.filter fun r =>
    r.api_group == api_group && r.rule_type == RuleType.model)
  let from_model : Option RoutingRule :=
    match model_name with
    | some model =>
        model_rules.find? fun r => matches_pattern r.match_pattern model
    | none => none
  match from_model with
  | some r => some r
  | none =>
      let path_rules := rules.filter fun r =>
        r.api_group == api_group && r.rule_type == RuleType.path
      let path_rules :=
        if api_group == ApiGroup.generic then
          List.insertionSort generic_path_le path_rules
        else sort_by_priority path_rules
      path_rules.find? fun r => matches_pattern r.match_pattern request_path

/-- The enabled rules sorted by ascending priority, as built at the top of
resolve_provider. -/
def sorted_enabled_rules (config : VibeMateConfig) : List RoutingRule :=
  sort_by_priority (config.routing_rules.filter fun r => r.enabled)

/-- The rule selection of resolve_provider: match within the requested
group, then fall back to the generic group unless already generic. -/
def matched_rule (config : VibeMateConfig) (api_group : ApiGroup)
    (request_path : String) (model_name : Option String) :
    Option RoutingRule :=
  let rules := sorted_enabled_rules config
  match match_rule_for_group rules api_group request_path model_name with
  | some r => some r
  | none =>
      if api_group == ApiGroup.generic then none
      else match_rule_for_group rules ApiGroup.generic request_path model_name

structure ResolvedProvider where
  provider : Provider
  final_model : String
  model_rewritten : Bool
deriving DecidableEq, Repr

/-- The fallback of resolve_provider: the provider flagged is_default, or
else the first provider in stored order. -/
def fallback_provider (config : VibeMateConfig) : Option Provider :=
  match config.providers.find? (fun p => p.is_default) with
  | some p => some p
  | none => config.providers.head?

/-- proxy.rs resolve_provider. -/
def resolve_provider (config : VibeMateConfig) (api_group : ApiGroup)
    (request_path : String) (model_name : Option String) :
    Option ResolvedProvider :=
  if config.providers.isEmpty then none
  else
    let via_rule : Option ResolvedProvider :=
      match matched_rule config api_group request_path model_name with
      | some rule =>
          match config.providers.find? (fun p => p.id == rule.provider_id) with
          | some provider =>
              some { provider := provider
                     final_model :=
                       (model_name.map (fun model =>
                         rule.model_rewrite.getD model)).getD ""
                     model_rewritten :=
                       rule.model_rewrite.isSome && model_name.isSome }
          | none => none
      | none => none
    match via_rule with
    | some r => some r
    | none =>
        (fallback_provider config).map fun p =>
          { provider := p
            final_model := model_name.getD ""
            model_rewritten := false }

/-! ### Proxy handlers (services/proxy.rs)

The pure routing decision of each handler: the forwarded path derived by
stripping the group prefix, the resolution (which the source invokes with
the full original path), and the target URL.  A none result corresponds to
the 502 "No provider configured" response; body rewriting, header
filtering and relaying sit behind these decisions and are not modelled. -/

structure RouteOutcome where
  resolved : ResolvedProvider
  target_url : String
deriving DecidableEq, Repr

/-- openai_proxy_handler, up to the target URL. -/
def openai_proxy_route (config : VibeMateConfig) (full_path : String)
    (model_name : Option String) : Option RouteOutcome :=
  let path := strip_group_pre "/api/openai" full_path
  match resolve_provider config ApiGroup.openai full_path model_name with
  | none => none
  | some resolved =>
      let base_url := trim_end_slashes resolved.provider.api_base_url
      let target_url :=
        if str_ends_with base_url "/v1" && str_starts_with path "/v1" then
          base_url ++ str_drop path 3
        else base_url ++ path
      some ⟨resolved, target_url⟩

/-- generic_proxy_handler, up to the target URL. -/
def generic_proxy_route (config : VibeMateConfig) (full_path : String)
    (model_name : Option String) : Option RouteOutcome :=
  let path := strip_group_pre "/api" full_path
  match resolve_provider config ApiGroup.generic full_path model_name with
  | none => none
  | some resolved =>
      let base_url := trim_end_slashes resolved.provider.api_base_url
      let target_url :=
        if str_ends_with base_url "/v1" && str_starts_with path "/v1" then
          base_url ++ str_drop path 3
        else base_url ++ path
      some ⟨resolved, target_url⟩

/-- anthropic_proxy_handler, up to the target URL: the target is the plain
concatenation of the trimmed base URL and the stripped path. -/
def anthropic_proxy_route (config : VibeMateConfig) (full_path : String)
    (model_name : Option String) : Option RouteOutcome :=
  let path := strip_group_pre "/api/anthropic" full_path
  match resolve_provider config ApiGroup.anthropic full_path model_name with
  | none => none
  | some resolved =>
      let base_url := trim_end_slashes resolved.provider.api_base_url
      let target_url := base_url ++ path
      some ⟨resolved, target_url⟩

/-! ### Agent auth service (services/agent_auth.rs) -/

inductive AgentAuthError
  | providerNotFound (id : String)
  | notAgentProvider (id : String)
  | unsupportedAgentProvider (id : String)
  | flowInProgress
  | flowNotFound (id : String)
  | timeout
  | invalidCallback (msg : String)
  | unauthorized
  | http (msg : String)
  | storage (msg : String)
  | io (msg : String)
  | parse (msg : String)
deriving DecidableEq, Repr

/-! #### Staleness policies

Instants are modelled as integer nanoseconds since the epoch, the
precision of chrono DateTime; chrono Duration comparison is exact.  The
rfc3339 parse of the stored expire string appears as an Option argument,
None when the string does not parse (the source then substitutes the
current instant). -/

def nsPerSecond : Int := 1000000000

/-- agent_auth.rs should_refresh_codex: stale when less than five days
remain before the stored absolute expiry. -/
def should_refresh_codex (expire : Option Int) (now : Int) : Bool :=
  decide (expire.getD now - now < 5 * 86400 * nsPerSecond)

/-- agent_auth.rs should_refresh_claude: stale when less than five minutes
remain before the stored absolute expiry. -/
def should_refresh_claude (expire : Option Int) (now : Int) : Bool :=
  decide (expire.getD now - now < 5 * 60 * nsPerSecond)

/-- agent_auth.rs should_refresh_google: millisecond arithmetic on the
stored issue timestamp and expires_in seconds, with a fixed 3000-second
skew. -/
def should_refresh_google (timestamp expires_in now_ms : Int) : Bool :=
  decide (now_ms ≥ timestamp + expires_in * 1000 - 3000 * 1000)

/-- Modelled from the spec, the policy table of section 4.2 for vendor A:
stale if less than five days remain before absolute expiry. -/
def codex_stale_spec (expire now : Int) : Prop :=
  expire - now < 5 * 86400 * nsPerSecond

/-- Modelled from the spec, the policy table of section 4.2 for vendor B:
stale if less than five minutes remain. -/
def claude_stale_spec (expire now : Int) : Prop :=
  expire - now < 5 * 60 * nsPerSecond

/-- Modelled from the spec, the policy table of section 4.2 for vendors C
and D: stale when now_ms has reached issued_at_ms plus expires_in seconds
less a 3000000 ms skew. -/
def google_stale_spec (issued_at_ms expires_in now_ms : Int) : Prop :=
  now_ms ≥ issued_at_ms + expires_in * 1000 - 3000000

/-! #### Quota fetch with the retry-once-on-401 pattern

The shared shape of get_codex_quota_for_provider,
get_claude_quota_for_provider and get_antigravity_quota_for_provider.
The vendor calls refresh_token, save_auth_file and fetch_quota are
explicit function parameters over the vendor token-storage type; the
returned log counts how often each was invoked. -/

structure QuotaCallLog where
  refreshes : Nat
  saves : Nat
  fetches : Nat
deriving DecidableEq, Repr

/-- The match on the first fetch_quota result: Ok returns, Unauthorized
refreshes once, persists and retries once, any other error surfaces
unchanged. -/
def fetch_retry_phase {α β : Type}
    (refresh_token : α → Except AgentAuthError α)
    (save_auth_file : α → Except AgentAuthError Unit)
    (fetch_quota : α → Except AgentAuthError β)
    (auth : α) (log : QuotaCallLog) :
    Except AgentAuthError β × QuotaCallLog :=
  let log1 := { log with fetches := log.fetches + 1 }
  match fetch_quota auth with
  | .ok quota => (.ok quota, log1)
  | .error .unauthorized =>
      match refresh_token auth with
      | .error e => (.error e, { log1 with refreshes := log1.refreshes + 1 })
      | .ok auth2 =>
          let log2 := { log1 with refreshes := log1.refreshes + 1 }
          match save_auth_file auth2 with
          | .error e => (.error e, { log2 with saves := log2.saves + 1 })
          | .ok _ =>
              let log3 := { log2 with saves := log2.saves + 1 }
              (fetch_quota auth2, { log3 with fetches := log3.fetches + 1 })
  | .error e => (.error e, log1)

/-- get_*_quota_for_provider after load_and_normalize_auth: refresh and
persist first when the credential is stale, then fetch with the
retry-once-on-401 pattern. -/
def get_quota_for_provider {α β : Type} (should_refresh : α → Bool)
    (refresh_token : α → Except AgentAuthError α)
    (save_auth_file : α → Except AgentAuthError Unit)
    (fetch_quota : α → Except AgentAuthError β)
    (auth : α) : Except AgentAuthError β × QuotaCallLog :=
  if should_refresh auth then
    match refresh_token auth with
    | .error e => (.error e, ⟨1, 0, 0⟩)
    | .ok auth1 =>
        match save_auth_file auth1 with
        | .error e => (.error e, ⟨1, 1, 0⟩)
        | .ok _ =>
            fetch_retry_phase refresh_token save_auth_file fetch_quota
              auth1 ⟨1, 1, 0⟩
  else
    fetch_retry_phase refresh_token save_auth_file fetch_quota auth ⟨0, 0, 0⟩

/-! #### The auth flow orchestrator (start_auth) -/

structure PendingAuth where
  provider_id : String
  provider_type : AgentProviderType
  state : String
  code_verifier : String
  receiver : Option Unit
  shutdown : Option Unit
deriving DecidableEq, Repr

structure AgentAuthStart where
  flow_id : String
  auth_url : String
deriving DecidableEq, Repr

/-- agent_auth.rs get_provider: look the id up in the stored provider
set. -/
def get_provider (providers : List Provider) (id : String) :
    Except AgentAuthError Provider :=
  match providers.find? (fun p => p.id == id) with
  | some p => .ok p
  | none => .error (.providerNotFound id)

/-- The vendor-fixed callback port constants. -/
def agent_callback_port : AgentProviderType → Nat
  | .codex => 1455
  | .claudeCode => 54545
  | .antigravity => 51121
  | .geminiCli => 8085

/-- The vendor-fixed callback path constants. -/
def agent_callback_path : AgentProviderType → String
  | .codex => "/auth/callback"
  | .claudeCode => "/callback"
  | .antigravity => "/oauth-callback"
  | .geminiCli => "/oauth2callback"

/-- agent_auth.rs start_auth.  Externally produced values are parameters:
flow_id (a fresh Uuid), state (random_state), the PKCE verifier
(generate_pkce_codes, used by the Codex and ClaudeCode arms while the
Google-based arms store an empty verifier), the vendor authorize-URL
construction (build_codex_auth_url, build_claude_auth_url,
build_google_auth_url; an Err models a URL-construction failure) and the
callback-listener bind (an Err models a failed TcpListener::bind).  The
pending map is an association list from flow_id to PendingAuth. -/
def start_auth (providers : List Provider)
    (pending : List (String × PendingAuth)) (provider_id : String)
    (flow_id state pkce_verifier : String)
    (build_auth_url : AgentProviderType → Except AgentAuthError String)
    (bind_listener : Except AgentAuthError Unit) :
    Except AgentAuthError AgentAuthStart × List (String × PendingAuth) :=
  match get_provider providers provider_id with
  | .error e => (.error e, pending)
  | .ok provider =>
      match provider.provider_type with
      | .model _ => (.error (.notAgentProvider provider_id), pending)
      | .agent agent_type =>
          if !pending.isEmpty then (.error .flowInProgress, pending)
          else
            let code_verifier :=
              match agent_type with
              | .codex => pkce_verifier
              | .claudeCode => pkce_verifier
              | .antigravity => ""
              | .geminiCli => ""
            match build_auth_url agent_type with
            | .error e => (.error e, pending)
            | .ok auth_url =>
                match bind_listener with
                | .error e => (.error e, pending)
                | .ok _ =>
                    (.ok { flow_id := flow_id, auth_url := auth_url },
                     (flow_id,
                      { provider_id := provider_id
                        provider_type := agent_type
                        state := state
                        code_verifier := code_verifier
                        receiver := some ()
                        shutdown := some () }) :: pending)

/-! #### The callback listener (auth_callback) -/

/-- Split the leftmost hash character out of a character list. -/
def split_once_hash : List Char → Option (List Char × List Char)
  | [] => none
  | c :: cs =>
      if c == '#' then some ([], cs)
      else
        match split_once_hash cs with
        | some (l, r) => some (c :: l, r)
        | none => none

/-- Rust str::trim (the source only meets ASCII whitespace here). -/
def trim_l (s : List Char) : List Char :=
  ((s.dropWhile Char.isWhitespace).reverse.dropWhile Char.isWhitespace).reverse

/-- agent_auth.rs split_code_and_state: some vendors embed the state in
the code value after a hash; recover it, dropping a leading state= and
ignoring an empty remainder. -/
def split_code_and_state (code : String) : String × Option String :=
  match split_once_hash code.data with
  | some (l, r) =>
      let sv := trim_l r
      let sv := if starts_with_l sv "state=".data then sv.drop 6 else sv
      (⟨l⟩, if sv.isEmpty then none else some ⟨sv⟩)
  | none => (code, none)

structure AuthServerState where
  expected_state : String
  sender : Option Unit
deriving DecidableEq, Repr

structure AuthCallbackQuery where
  code : Option String
  state : Option String
deriving DecidableEq, Repr

structure AuthCallback where
  code : String
  state : String
deriving DecidableEq, Repr

inductive CallbackResponse
  | badRequest (msg : String)
  | html (body : String)
deriving DecidableEq, Repr

/-- The observable outcome of one auth_callback request: the HTTP
response, the state of the one-shot sender slot after the call, and the
message delivered through the channel, if any. -/
structure CallbackOutcome where
  response : CallbackResponse
  sender : Option Unit
  delivered : Option AuthCallback
deriving DecidableEq, Repr

def authSuccessHtml : String :=
  "Authentication successful. You can close this window and return to Vibe Mate."

/-- agent_auth.rs auth_callback. -/
def auth_callback (st : AuthServerState) (params : AuthCallbackQuery) :
    CallbackOutcome :=
  match params.code with
  | none => ⟨.badRequest "Missing code in callback", st.sender, none⟩
  | some code =>
      let split := split_code_and_state code
      match params.state.or split.2 with
      | none => ⟨.badRequest "Missing state in callback", st.sender, none⟩
      | some callback_state =>
          if callback_state ≠ st.expected_state then
            ⟨.badRequest "Invalid state in callback", st.sender, none⟩
          else
            match st.sender with
            | some _ =>
                ⟨.html authSuccessHtml, none,
                 some ⟨split.1, callback_state⟩⟩
            | none => ⟨.html authSuccessHtml, none, none⟩

/-! #### Antigravity quota normalization (fetch_antigravity_quota)

Floating-point percentages are modelled as rationals; the rfc3339 reset
time parse (chrono) is an explicit parameter. -/

structure AgentQuotaEntry where
  label : String
  used_percent : ℚ
  reset_at : Option Int
deriving DecidableEq, Repr

structure AgentQuota where
  plan_type : Option String
  limit_reached : Option Bool
  session_used_percent : ℚ
  session_reset_at : Option Int
  week_used_percent : ℚ
  week_reset_at : Option Int
  entries : Option (List AgentQuotaEntry)
  note : Option String
deriving DecidableEq, Repr

structure ModelQuotaInfo where
  remaining_fraction : ℚ
  reset_time : Option String
deriving DecidableEq, Repr

structure AvailableModel where
  quota_info : Option ModelQuotaInfo
deriving DecidableEq, Repr

/-- The parsed fetchAvailableModels body: a map from model name to model
info, carried as an association list (serde deserializes a HashMap, whose
iteration order is arbitrary; the source sorts afterwards). -/
structure FetchAvailableModelsResponse where
  models : List (String × AvailableModel)
deriving DecidableEq, Repr

/-- Byte-lexicographic string comparison, the order of Rust String cmp
(UTF-8 byte order and codepoint order agree). -/
def str_le_b : List Char → List Char → Bool
  | [], _ => true
  | _ :: _, [] => false
  | a :: as_, b :: bs => if a = b then str_le_b as_ bs else decide (a < b)

abbrev quota_label_le (a b : AgentQuotaEntry) : Prop :=
  str_le_b a.label.data b.label.data = true

inductive HttpResponse (α : Type)
  | unauthorized
  | failure (status : Nat) (body : String)
  | success (value : α)

/-- agent_auth.rs fetch_antigravity_quota, given the HTTP outcome of the
fetchAvailableModels call: a 401 status maps to Unauthorized, any other
non-success status to a Parse error, and a parsed success body is
normalized into the vendor-neutral AgentQuota shape. -/
def fetch_antigravity_quota (parse_rfc3339 : String → Option Int)
    (response : HttpResponse FetchAvailableModelsResponse) :
    Except AgentAuthError AgentQuota :=
  match response with
  | .unauthorized => .error .unauthorized
  | .failure status body =>
      .error (.parse s!"Antigravity quota request failed ({status}): {body}")
  | .success data =>
      let entries := data.models.filterMap fun nm =>
        nm.2.quota_info.map fun quota =>
          { label := nm.1
            used_percent := (1 - quota.remaining_fraction) * 100
            reset_at := quota.reset_time.bind parse_rfc3339 }
      let entries := List.insertionSort quota_label_le entries
      let session := entries.head?
      let week := entries[1]?.or session
      let note :=
        if entries.isEmpty then
          some "No quota data returned for this project."
        else none
      .ok { plan_type := some "Antigravity"
            limit_reached := none
            session_used_percent := ((session.map (·.used_percent)).getD 0)
            session_reset_at := session.bind (·.reset_at)
            week_used_percent := ((week.map (·.used_percent)).getD 0)
            week_reset_at := week.bind (·.reset_at)
            entries := some entries
            note := note }

/-! ### Example configurations used by concrete counterexamples and
witnesses -/

def exProvV1 : Provider :=
  { id := "provA", name := "A", provider_type := .model .openai
    api_base_url := "https://a.example.com/v1", api_key := "ka"
    is_default := true }

def exProvOther : Provider :=
  { id := "provB", name := "B", provider_type := .model .custom
    api_base_url := "https://b.example.com", api_key := "kb"
    is_default := false }

def exRulePathV1 : RoutingRule :=
  { id := "r1", rule_type := .path, api_group := .openai
    provider_id := "provB", match_pattern := "/v1/*", model_rewrite := none
    priority := 1, enabled := true }

def exCfgStripped : VibeMateConfig :=
  { providers := [exProvV1, exProvOther], routing_rules := [exRulePathV1] }

def exCfgAnthropic : VibeMateConfig :=
  { providers := [exProvV1], routing_rules := [] }

def exRuleRewrite : RoutingRule :=
  { id := "r2", rule_type := .model, api_group := .openai
    provider_id := "provB", match_pattern := "gpt-4*"
    model_rewrite := some "claude-3-opus", priority := 1, enabled := true }

def exCfgRewrite : VibeMateConfig :=
  { providers := [exProvV1, exProvOther], routing_rules := [exRuleRewrite] }

def exRuleInvalid : RoutingRule :=
  { id := "r3", rule_type := .model, api_group := .generic
    provider_id := "provA", match_pattern := "[", model_rewrite := none
    priority := 1, enabled := true }

def exCfgInvalid : VibeMateConfig :=
  { providers := [exProvV1], routing_rules := [exRuleInvalid] }

def exPending : PendingAuth :=
  { provider_id := "p0", provider_type := .codex, state := "s"
    code_verifier := "v", receiver := some (), shutdown := some () }

def exAgentProvider : Provider :=
  { id := "agent1", name := "Codex", provider_type := .agent .codex
    api_base_url := "", api_key := "", is_default := false }

deriving instance DecidableEq for Except

def exModelsData : FetchAvailableModelsResponse :=
  { models := [("model-b", ⟨some ⟨1/2, none⟩⟩),
               ("model-a", ⟨some ⟨1/4, some "2026-01-01T00:00:00Z"⟩⟩),
               ("model-c", ⟨none⟩)] }

/-! ### Shared lemmas about routing resolution -/

/-- With a non-empty provider set the default-or-first fallback always
produces a provider. -/
lemma fallback_provider_isSome (config : VibeMateConfig)
    (hne : config.providers ≠ []) :
    ∃ p, fallback_provider config = some p := by
  unfold fallback_provider
  cases hf : config.providers.find? (fun p => p.is_default) with
  | some p => exact ⟨p, rfl⟩
  | none =>
      cases hl : config.providers with
      | nil => exact absurd hl hne
      | cons a l => exact ⟨a, by simp [hl]⟩

/-- Unfolding resolve_provider when a rule matched and its provider
exists. -/
lemma resolve_provider_of_matched (config : VibeMateConfig)
    (api_group : ApiGroup) (request_path : String)
    (model_name : Option String) (rule : RoutingRule) (provider : Provider)
    (hrule : matched_rule config api_group request_path model_name =
      some rule)
    (hprov : config.providers.find? (fun p => p.id == rule.provider_id) =
      some provider) :
    resolve_provider config api_group request_path model_name =
      some { provider := provider
             final_model :=
               (model_name.map (fun model =>
                 rule.model_rewrite.getD model)).getD ""
             model_rewritten :=
               rule.model_rewrite.isSome && model_name.isSome } := by
  have hne : config.providers.isEmpty = false := by
    cases hl : config.providers with
    | nil => rw [hl] at hprov; simp at hprov
    | cons a l => simp
  unfold resolve_provider
  rw [hne, hrule]
  simp [hprov]

/-- Unfolding resolve_provider when no rule matched, or the matched rule
points at a provider absent from the provider set. -/
lemma resolve_provider_of_fallback (config : VibeMateConfig)
    (api_group : ApiGroup) (request_path : String)
    (model_name : Option String)
    (hmiss : matched_rule config api_group request_path model_name = none ∨
      ∃ rule, matched_rule config api_group request_path model_name =
          some rule ∧
        config.providers.find? (fun p => p.id == rule.provider_id) = none)
    (hne : config.providers ≠ []) :
    ∃ dp, fallback_provider config = some dp ∧
      resolve_provider config api_group request_path model_name =
        some { provider := dp
               final_model := model_name.getD ""
               model_rewritten := false } := by
  obtain ⟨dp, hdp⟩ := fallback_provider_isSome config hne
  refine ⟨dp, hdp, ?_⟩
  have hempty : config.providers.isEmpty = false := by
    cases hl : config.providers with
    | nil => exact absurd hl hne
    | cons a l => simp
  unfold resolve_provider
  rw [hempty]
  rcases hmiss with hnone | ⟨rule, hrule, hfind⟩
  · rw [hnone]; simp [hdp]
  · rw [hrule]; simp [hfind, hdp]

/-- Resolution yields no provider exactly when the provider set is
empty. -/
lemma resolve_provider_none_iff (config : VibeMateConfig)
    (api_group : ApiGroup) (request_path : String)
    (model_name : Option String) :
    resolve_provider config api_group request_path model_name = none ↔
      config.providers = [] := by
  constructor
  · intro h
    by_contra hne
    cases hmr : matched_rule config api_group request_path model_name with
    | none =>
        obtain ⟨dp, _, hres⟩ := resolve_provider_of_fallback config api_group
          request_path model_name (Or.inl hmr) hne
        rw [hres] at h
        exact Option.noConfusion h
    | some rule =>
        cases hpf : config.providers.find?
            (fun p => p.id == rule.provider_id) with
        | none =>
            obtain ⟨dp, _, hres⟩ := resolve_provider_of_fallback config
              api_group request_path model_name
              (Or.inr ⟨rule, hmr, hpf⟩) hne
            rw [hres] at h
            exact Option.noConfusion h
        | some provider =>
            have hres := resolve_provider_of_matched config api_group
              request_path model_name rule provider hmr hpf
            rw [hres] at h
            exact Option.noConfusion h
  · intro h
    unfold resolve_provider
    rw [h]
    simp

lemma str_le_b_total (a b : List Char) :
    str_le_b a b = true ∨ str_le_b b a = true := by
  induction a generalizing b with
  | nil => left; rfl
  | cons x xs ih =>
      cases b with
      | nil => right; rfl
      | cons y ys =>
          by_cases hxy : x = y
          · subst hxy
            simpa [str_le_b] using ih ys
          · rcases lt_trichotomy x y with hlt | heq | hgt
            · left; simp [str_le_b, hxy, hlt]
            · exact absurd heq hxy
            · right; simp [str_le_b, Ne.symm hxy, hgt]

lemma str_le_b_trans (a b c : List Char) (hab : str_le_b a b = true)
    (hbc : str_le_b b c = true) : str_le_b a c = true := by
  induction a generalizing b c with
  | nil => rfl
  | cons x xs ih =>
      cases b with
      | nil => simp [str_le_b] at hab
      | cons y ys =>
          cases c with
          | nil => simp [str_le_b] at hbc
          | cons z zs =>
              simp only [str_le_b] at hab hbc ⊢
              by_cases hxy : x = y
              · subst hxy
                rw [if_pos rfl] at hab
                by_cases hyz : x = z
                · subst hyz
                  rw [if_pos rfl] at hbc ⊢
                  exact ih ys zs hab hbc
                · rw [if_neg hyz] at hbc ⊢
                  exact hbc
              · rw [if_neg hxy] at hab
                have hlt : x < y := of_decide_eq_true hab
                by_cases hyz : y = z
                · subst hyz
                  rw [if_neg hxy]
                  exact decide_eq_true hlt
                · rw [if_neg hyz] at hbc
                  have hlt2 : y < z := of_decide_eq_true hbc
                  have hxz : x < z := lt_trans hlt hlt2
                  rw [if_neg (ne_of_lt hxz)]
                  exact decide_eq_true hxz

instance : IsTotal AgentQuotaEntry quota_label_le :=
  ⟨fun a b => str_le_b_total a.label.data b.label.data⟩

instance : IsTrans AgentQuotaEntry quota_label_le :=
  ⟨fun a b c => str_le_b_trans a.label.data b.label.data c.label.data⟩

/-- C1. The claim says resolve_provider is invoked with the stripped path.
In the source every handler passes the full original request path to
resolve_provider; with an openai Path rule matching /v1/* the handler
falls back to the default provider while stripped-path resolution would
select the rule target, so the two disagree at this input. -/
theorem stripped_path_resolution_cex :
    (openai_proxy_route exCfgStripped "/api/openai/v1/chat/completions"
        none).map (fun o => o.resolved.provider.id) = some "provA" ∧
    (resolve_provider exCfgStripped ApiGroup.openai "/v1/chat/completions"
        none).map (fun r => r.provider.id) = some "provB" ∧
    ("provA" : String) ≠ "provB" := by
  refine ⟨?_, ?_, by simp⟩ <;>
    simp [openai_proxy_route, resolve_provider, matched_rule,
      sorted_enabled_rules, match_rule_for_group, matches_pattern,
      Pattern_new, parse_tokens, GlobPattern.mtch, matches_from, seq_loop,
      chars_eq, MatchOptions.new, Except.map, exCfgStripped, exProvV1,
      exProvOther, exRulePathV1, fallback_provider, strip_group_pre,
      str_starts_with, starts_with_l, str_ends_with, str_drop,
      trim_end_slashes, List.insertionSort, List.orderedInsert,
      List.filter, List.find?, beq_iff_eq]

/-- C1 (amended): every proxy handler invokes resolve_provider with the
full original request path, not the stripped path; the stripped path only
feeds the target URL. -/
theorem handlers_resolve_with_full_path (config : VibeMateConfig)
    (full_path : String) (model_name : Option String) :
    ((openai_proxy_route config full_path model_name).map
        (fun o => o.resolved) =
      resolve_provider config ApiGroup.openai full_path model_name) ∧
    ((generic_proxy_route config full_path model_name).map
        (fun o => o.resolved) =
      resolve_provider config ApiGroup.generic full_path model_name) ∧
    ((anthropic_proxy_route config full_path model_name).map
        (fun o => o.resolved) =
      resolve_provider config ApiGroup.anthropic full_path model_name) := by
  refine ⟨?_, ?_, ?_⟩
  · unfold openai_proxy_route
    cases hr : resolve_provider config ApiGroup.openai full_path model_name
      <;> simp [hr]
  · unfold generic_proxy_route
    cases hr : resolve_provider config ApiGroup.generic full_path model_name
      <;> simp [hr]
  · unfold anthropic_proxy_route
    cases hr : resolve_provider config ApiGroup.anthropic full_path
      model_name <;> simp [hr]

/-- C2. The claim says all three gateway groups collapse a duplicate /v1
segment.  The anthropic handler concatenates the trimmed base URL and the
stripped path without the collapse, so a provider base ending in /v1
produces a target URL with a doubled /v1. -/
theorem anthropic_double_v1_cex :
    str_ends_with (trim_end_slashes exProvV1.api_base_url) "/v1" = true ∧
    str_starts_with
      (strip_group_pre "/api/anthropic" "/api/anthropic/v1/messages")
      "/v1" = true ∧
    (anthropic_proxy_route exCfgAnthropic "/api/anthropic/v1/messages"
        none).map (fun o => o.target_url) =
      some "https://a.example.com/v1/v1/messages" ∧
    is_sub_l "/v1/v1".data "https://a.example.com/v1/v1/messages".data
      = true := by
  refine ⟨by decide, by decide, ?_, by decide⟩
  simp [anthropic_proxy_route, resolve_provider, matched_rule,
    sorted_enabled_rules, match_rule_for_group, matches_pattern,
    Pattern_new, parse_tokens, Except.map, exCfgAnthropic, exProvV1,
    fallback_provider, strip_group_pre, str_starts_with, starts_with_l,
    str_drop, trim_end_slashes, List.insertionSort, List.orderedInsert,
    List.filter, List.find?, beq_iff_eq]

/-- C2 (amended): the openai and generic handlers collapse the duplicate
/v1 segment when the trimmed base URL ends in /v1 and the stripped path
starts with /v1; the anthropic handler always concatenates the trimmed
base URL and the stripped path directly. -/
theorem target_url_v1_collapse (config : VibeMateConfig)
    (full_path : String) (model_name : Option String) :
    (∀ r, resolve_provider config ApiGroup.openai full_path model_name =
        some r →
      str_ends_with (trim_end_slashes r.provider.api_base_url) "/v1" =
        true →
      str_starts_with (strip_group_pre "/api/openai" full_path) "/v1" =
        true →
      openai_proxy_route config full_path model_name =
        some ⟨r, trim_end_slashes r.provider.api_base_url ++
          str_drop (strip_group_pre "/api/openai" full_path) 3⟩) ∧
    (∀ r, resolve_provider config ApiGroup.generic full_path model_name =
        some r →
      str_ends_with (trim_end_slashes r.provider.api_base_url) "/v1" =
        true →
      str_starts_with (strip_group_pre "/api" full_path) "/v1" = true →
      generic_proxy_route config full_path model_name =
        some ⟨r, trim_end_slashes r.provider.api_base_url ++
          str_drop (strip_group_pre "/api" full_path) 3⟩) ∧
    (∀ r, resolve_provider config ApiGroup.anthropic full_path model_name =
        some r →
      anthropic_proxy_route config full_path model_name =
        some ⟨r, trim_end_slashes r.provider.api_base_url ++
          strip_group_pre "/api/anthropic" full_path⟩) := by
  refine ⟨?_, ?_, ?_⟩
  · intro r hr hends hstarts
    unfold openai_proxy_route
    rw [hr]
    simp [hends, hstarts]
  · intro r hr hends hstarts
    unfold generic_proxy_route
    rw [hr]
    simp [hends, hstarts]
  · intro r hr
    unfold anthropic_proxy_route
    rw [hr]

/-- Witness for the amended C2 theorem at a concrete configuration. -/
theorem target_url_v1_collapse_witness :
    openai_proxy_route exCfgAnthropic "/api/openai/v1/chat/completions"
        none =
      some ⟨⟨exProvV1, "", false⟩,
        "https://a.example.com/v1/chat/completions"⟩ := by
  obtain ⟨h1, -, -⟩ := target_url_v1_collapse exCfgAnthropic
    "/api/openai/v1/chat/completions" none
  have hres : resolve_provider exCfgAnthropic ApiGroup.openai
      "/api/openai/v1/chat/completions" none =
      some ⟨exProvV1, "", false⟩ := by
    simp [resolve_provider, matched_rule, sorted_enabled_rules,
      match_rule_for_group, exCfgAnthropic, exProvV1, fallback_provider,
      List.insertionSort, List.filter, List.find?]
  have := h1 ⟨exProvV1, "", false⟩ hres (by decide) (by decide)
  simpa [exProvV1, trim_end_slashes, strip_group_pre, str_starts_with,
    starts_with_l, str_drop] using this

/-- C4: routing resolution fails exactly when the provider set is empty;
whenever no rule matched, or the matched rule points at a provider absent
from the live set, it falls back to the default-or-first provider with no
model rewrite. -/
theorem routing_fallback_total (config : VibeMateConfig)
    (api_group : ApiGroup) (request_path : String)
    (model_name : Option String) :
    (resolve_provider config api_group request_path model_name = none ↔
      config.providers = []) ∧
    ((matched_rule config api_group request_path model_name = none ∨
      ∃ rule, matched_rule config api_group request_path model_name =
          some rule ∧
        config.providers.find? (fun p => p.id == rule.provider_id) =
          none) →
      config.providers ≠ [] →
      ∃ dp, fallback_provider config = some dp ∧
        resolve_provider config api_group request_path model_name =
          some { provider := dp
                 final_model := model_name.getD ""
                 model_rewritten := false }) := by
  exact ⟨resolve_provider_none_iff config api_group request_path model_name,
    fun hmiss hne => resolve_provider_of_fallback config api_group
      request_path model_name hmiss hne⟩

/-- Witness for the C4 theorem: a provider set with one default provider
and no rules resolves to that provider with the model passed through. -/
theorem routing_fallback_total_witness :
    fallback_provider exCfgAnthropic = some exProvV1 ∧
    resolve_provider exCfgAnthropic ApiGroup.openai "/x" (some "m") =
      some { provider := exProvV1, final_model := "m"
             model_rewritten := false } := by
  obtain ⟨-, h2⟩ := routing_fallback_total exCfgAnthropic ApiGroup.openai
    "/x" (some "m")
  obtain ⟨dp, hdp, hres⟩ := h2
    (Or.inl (by simp [matched_rule, sorted_enabled_rules,
      match_rule_for_group, exCfgAnthropic, List.insertionSort,
      List.filter]))
    (by simp [exCfgAnthropic])
  have hfb : fallback_provider exCfgAnthropic = some exProvV1 := by
    simp [fallback_provider, exCfgAnthropic, exProvV1, List.find?]
  rw [hfb] at hdp
  cases hdp
  exact ⟨hfb, hres⟩

/-- C8: on a rule match with a live provider, the result is rewritten
exactly when the rule defines a rewrite and a model name was present;
otherwise the original model name (or the empty default when none was
extracted) passes through un-rewritten. -/
theorem model_rewrite_iff (config : VibeMateConfig) (api_group : ApiGroup)
    (request_path : String) (model_name : Option String)
    (rule : RoutingRule) (provider : Provider)
    (hrule : matched_rule config api_group request_path model_name =
      some rule)
    (hprov : config.providers.find? (fun p => p.id == rule.provider_id) =
      some provider) :
    ∃ res, resolve_provider config api_group request_path model_name =
        some res ∧
      res.provider = provider ∧
      (res.model_rewritten = true ↔
        rule.model_rewrite.isSome = true ∧ model_name.isSome = true) ∧
      (∀ target mo, rule.model_rewrite = some target →
        model_name = some mo → res.final_model = target) ∧
      (rule.model_rewrite = none → ∀ mo, model_name = some mo →
        res.final_model = mo ∧ res.model_rewritten = false) ∧
      (model_name = none →
        res.final_model = "" ∧ res.model_rewritten = false) := by
  have hres := resolve_provider_of_matched config api_group request_path
    model_name rule provider hrule hprov
  refine ⟨_, hres, rfl, ?_, ?_, ?_, ?_⟩ <;> clear hres hrule hprov
  · cases rule.model_rewrite <;> cases model_name <;> simp
  · intro target mo htarget hmo
    subst hmo
    simp [htarget]
  · intro hnone mo hmo
    subst hmo
    simp [hnone]
  · intro hmo
    subst hmo
    simp

/-- Witness for the C8 theorem at a concrete matching rule with a rewrite
and a present model name. -/
theorem model_rewrite_iff_witness :
    ∃ res, resolve_provider exCfgRewrite ApiGroup.openai "/v1/chat"
        (some "gpt-4-turbo") = some res ∧
      res.provider = exProvOther ∧ res.final_model = "claude-3-opus" ∧
      res.model_rewritten = true := by
  obtain ⟨res, hres, hprov, hiff, hrewrite, -, -⟩ :=
    model_rewrite_iff exCfgRewrite ApiGroup.openai "/v1/chat"
      (some "gpt-4-turbo") exRuleRewrite exProvOther
      (by simp [matched_rule, sorted_enabled_rules, match_rule_for_group,
        exCfgRewrite, exRuleRewrite, matches_pattern, Pattern_new,
        parse_tokens, GlobPattern.mtch, matches_from, seq_loop, chars_eq,
        MatchOptions.new, Except.map, List.insertionSort,
        List.orderedInsert, List.filter, List.find?, beq_iff_eq])
      (by simp [exCfgRewrite, exProvV1, exProvOther, exRuleRewrite,
        List.find?, beq_iff_eq])
  exact ⟨res, hres, hprov,
    hrewrite "claude-3-opus" "gpt-4-turbo" rfl rfl,
    hiff.mpr ⟨rfl, rfl⟩⟩

/-- C10: an invalid glob pattern never matches anything (Pattern::new
errors are absorbed into a false match), errors are reachable (the bare
open bracket fails to parse), and resolution still succeeds for every
rule set whenever the provider set is non-empty. -/
theorem invalid_pattern_never_matches :
    (∀ pattern s err, Pattern_new pattern = .error err →
      matches_pattern pattern s = false) ∧
    (∃ err, Pattern_new "[" = .error err) ∧
    (∀ (config : VibeMateConfig) api_group request_path model_name,
      config.providers ≠ [] →
      (resolve_provider config api_group request_path
        model_name).isSome = true) := by
  refine ⟨?_, ?_, ?_⟩
  · intro pattern s err h
    simp [matches_pattern, h]
  · exact ⟨(0, errorInvalidRange),
      by simp [Pattern_new, parse_tokens, Except.map]⟩
  · intro config api_group request_path model_name hne
    cases hr : resolve_provider config api_group request_path model_name
      with
    | none =>
        exact absurd ((resolve_provider_none_iff config api_group
          request_path model_name).mp hr) hne
    | some r => rfl

/-- Witness for the C10 theorem: a rule set containing an invalid pattern
still resolves against a non-empty provider set. -/
theorem invalid_pattern_never_matches_witness :
    matches_pattern "[" "gpt-4" = false ∧
    (resolve_provider exCfgInvalid ApiGroup.generic "/api/x"
      (some "gpt-4")).isSome = true := by
  obtain ⟨h1, ⟨err, herr⟩, h3⟩ := invalid_pattern_never_matches
  exact ⟨h1 "[" "gpt-4" err herr,
    h3 exCfgInvalid ApiGroup.generic "/api/x" (some "gpt-4")
      (by simp [exCfgInvalid])⟩

/-! ### Claim C7: staleness policies -/

/-- C7: each staleness check returns true exactly when the section 4.2
policy is satisfied: Codex under five days to expiry, Claude under five
minutes, and the Google-based vendors once now_ms reaches
issued_at_ms + expires_in seconds less the 3000000 ms skew. -/
theorem staleness_policy_iff (expire now timestamp expires_in now_ms :
    Int) :
    (should_refresh_codex (some expire) now = true ↔
      codex_stale_spec expire now) ∧
    (should_refresh_claude (some expire) now = true ↔
      claude_stale_spec expire now) ∧
    (should_refresh_google timestamp expires_in now_ms = true ↔
      google_stale_spec timestamp expires_in now_ms) := by
  refine ⟨?_, ?_, ?_⟩ <;>
    simp [should_refresh_codex, should_refresh_claude,
      should_refresh_google, codex_stale_spec, claude_stale_spec,
      google_stale_spec, nsPerSecond]

/-! ### Claim C3: retry-once-on-401 -/

/-- C3: an Unauthorized first fetch triggers exactly one refresh, one
persist and one retry whose result surfaces as-is (including a second
Unauthorized); any other first-fetch outcome surfaces unchanged with no
refresh; and the quota service enters this phase after the staleness
pre-step with the call counts shown. -/
theorem quota_retry_once_on_unauthorized {α β : Type}
    (should_refresh : α → Bool)
    (refresh_token : α → Except AgentAuthError α)
    (save_auth_file : α → Except AgentAuthError Unit)
    (fetch_quota : α → Except AgentAuthError β)
    (auth : α) (log : QuotaCallLog) :
    (∀ auth2, fetch_quota auth = .error .unauthorized →
      refresh_token auth = .ok auth2 → save_auth_file auth2 = .ok () →
      fetch_retry_phase refresh_token save_auth_file fetch_quota auth log =
        (fetch_quota auth2,
         ⟨log.refreshes + 1, log.saves + 1, log.fetches + 2⟩)) ∧
    (∀ e, fetch_quota auth = .error e → e ≠ .unauthorized →
      fetch_retry_phase refresh_token save_auth_file fetch_quota auth log =
        (.error e, ⟨log.refreshes, log.saves, log.fetches + 1⟩)) ∧
    (∀ q, fetch_quota auth = .ok q →
      fetch_retry_phase refresh_token save_auth_file fetch_quota auth log =
        (.ok q, ⟨log.refreshes, log.saves, log.fetches + 1⟩)) ∧
    (should_refresh auth = false →
      get_quota_for_provider should_refresh refresh_token save_auth_file
          fetch_quota auth =
        fetch_retry_phase refresh_token save_auth_file fetch_quota auth
          ⟨0, 0, 0⟩) ∧
    (∀ auth1, should_refresh auth = true →
      refresh_token auth = .ok auth1 → save_auth_file auth1 = .ok () →
      get_quota_for_provider should_refresh refresh_token save_auth_file
          fetch_quota auth =
        fetch_retry_phase refresh_token save_auth_file fetch_quota auth1
          ⟨1, 1, 0⟩) := by
  refine ⟨?_, ?_, ?_, ?_, ?_⟩
  · intro auth2 hfetch hrefresh hsave
    unfold fetch_retry_phase
    rw [hfetch, hrefresh]
    simp [hsave]
  · intro e hfetch hne
    unfold fetch_retry_phase
    rw [hfetch]
    cases e <;> simp_all
  · intro q hfetch
    unfold fetch_retry_phase
    rw [hfetch]
  · intro hstale
    unfold get_quota_for_provider
    rw [hstale]
    simp
  · intro auth1 hstale hrefresh hsave
    unfold get_quota_for_provider
    rw [hstale, hrefresh]
    simp [hsave]

/-- Witness for the C3 theorem: a fetch that is Unauthorized on the first
token and succeeds on the refreshed token ends in success with one
refresh, one save and two fetches. -/
theorem quota_retry_once_on_unauthorized_witness :
    get_quota_for_provider (fun _ => false) (fun a => .ok (a + 1))
      (fun _ => .ok ())
      (fun a : Nat =>
        if a == 0 then (.error .unauthorized : Except AgentAuthError Nat)
        else .ok 42)
      0 = (.ok 42, ⟨1, 1, 2⟩) := by
  obtain ⟨h1, -, -, h4, -⟩ := quota_retry_once_on_unauthorized
    (fun _ => false) (fun a => .ok (a + 1)) (fun _ => .ok ())
    (fun a : Nat =>
      if a == 0 then (.error .unauthorized : Except AgentAuthError Nat)
      else .ok 42)
    0 ⟨0, 0, 0⟩
  rw [h4 rfl, h1 1 rfl rfl rfl]
  rfl

/-! ### Claim C5: single-flow invariant of start_auth -/

/-- C5 (amended): while any flow is pending, start_auth never creates a
flow and always fails, leaving the pending map unchanged; when the
provider id resolves to an agent provider the failure is FlowInProgress
(a failed provider lookup surfaces its own error first). -/
theorem single_flow_invariant (providers : List Provider)
    (pending : List (String × PendingAuth))
    (provider_id flow_id state pkce_verifier : String)
    (build_auth_url : AgentProviderType → Except AgentAuthError String)
    (bind_listener : Except AgentAuthError Unit)
    (hne : pending ≠ []) :
    (start_auth providers pending provider_id flow_id state pkce_verifier
        build_auth_url bind_listener).2 = pending ∧
    (∀ r, (start_auth providers pending provider_id flow_id state
        pkce_verifier build_auth_url bind_listener).1 ≠ .ok r) ∧
    (∀ provider agent_type,
      get_provider providers provider_id = .ok provider →
      provider.provider_type = .agent agent_type →
      (start_auth providers pending provider_id flow_id state pkce_verifier
        build_auth_url bind_listener).1 = .error .flowInProgress) := by
  have hemp : (!pending.isEmpty) = true := by
    cases pending with
    | nil => exact absurd rfl hne
    | cons a l => rfl
  refine ⟨?_, ?_, ?_⟩
  · unfold start_auth
    split
    · rfl
    · split
      · rfl
      · rw [hemp]; simp
  · intro r
    unfold start_auth
    split
    · simp
    · split
      · simp
      · rw [hemp]; simp
  · intro provider agent_type hg hpt
    unfold start_auth
    simp only [hg]
    rw [hpt]
    simp [hemp]

/-- C5 counterexample: with a flow pending, a start_auth whose provider id
does not resolve fails with ProviderNotFound, not FlowInProgress, so
"fails with FlowInProgress whenever any pending flow exists" does not
hold as stated. -/
theorem start_auth_error_kind_cex :
    [("flow1", exPending)] ≠ ([] : List (String × PendingAuth)) ∧
    (start_auth [] [("flow1", exPending)] "nope" "flow2" "st" "ver"
        (fun _ => .ok "url") (.ok ())).1 =
      .error (.providerNotFound "nope") ∧
    AgentAuthError.providerNotFound "nope" ≠ .flowInProgress := by
  exact ⟨by simp, rfl, by simp⟩

/-- Witness for the amended C5 theorem: a second start_auth against a
pending flow and a resolvable agent provider returns FlowInProgress and
leaves the pending map unchanged. -/
theorem single_flow_invariant_witness :
    (start_auth [exAgentProvider] [("flow1", exPending)] "agent1" "flow2"
        "st" "ver" (fun _ => .ok "url") (.ok ())).1 =
      .error .flowInProgress ∧
    (start_auth [exAgentProvider] [("flow1", exPending)] "agent1" "flow2"
        "st" "ver" (fun _ => .ok "url") (.ok ())).2 =
      [("flow1", exPending)] := by
  obtain ⟨h1, -, h3⟩ := single_flow_invariant [exAgentProvider]
    [("flow1", exPending)] "agent1" "flow2" "st" "ver"
    (fun _ => .ok "url") (.ok ()) (by simp)
  exact ⟨h3 exAgentProvider .codex rfl rfl, h1⟩

/-! ### Claim C6: state-mismatch callbacks do not consume the flow -/

/-- C6: a callback whose recovered state differs from the expected state
is answered 400 and leaves the one-shot sender in place; a subsequent
callback carrying the correct state still delivers the cleaned code and
state and consumes the sender. -/
theorem callback_state_mismatch_preserves_flow (st : AuthServerState)
    (q1 q2 : AuthCallbackQuery) (code1 s1 code2 : String)
    (hsender : st.sender = some ())
    (hc1 : q1.code = some code1)
    (hs1 : q1.state.or (split_code_and_state code1).2 = some s1)
    (hmismatch : s1 ≠ st.expected_state)
    (hc2 : q2.code = some code2)
    (hs2 : q2.state.or (split_code_and_state code2).2 =
      some st.expected_state) :
    auth_callback st q1 =
      ⟨.badRequest "Invalid state in callback", some (), none⟩ ∧
    auth_callback st q2 =
      ⟨.html authSuccessHtml, none,
       some ⟨(split_code_and_state code2).1, st.expected_state⟩⟩ := by
  constructor
  · simp [auth_callback, hc1, hs1, hmismatch, hsender]
  · simp [auth_callback, hc2, hs2, hsender]

/-- Witness for the C6 theorem: a wrong embedded state is rejected without
consuming the channel, then the correct state completes delivery. -/
theorem callback_state_mismatch_preserves_flow_witness :
    auth_callback ⟨"good", some ()⟩ ⟨some "abc#state=evil", none⟩ =
      ⟨.badRequest "Invalid state in callback", some (), none⟩ ∧
    auth_callback ⟨"good", some ()⟩ ⟨some "abc", some "good"⟩ =
      ⟨.html authSuccessHtml, none, some ⟨"abc", "good"⟩⟩ := by
  have h := callback_state_mismatch_preserves_flow ⟨"good", some ()⟩
    ⟨some "abc#state=evil", none⟩ ⟨some "abc", some "good"⟩
    "abc#state=evil" "evil" "abc" rfl rfl (by decide) (by decide) rfl
    (by decide)
  have e : (split_code_and_state "abc").1 = "abc" := by decide
  rw [e] at h
  exact h

/-! ### Claim C9: antigravity quota normalization -/

/-- C9: a successful model listing normalizes into a successful report in
which every entry uses (1 - remainingFraction) * 100, the entries are
sorted by label, the session window is the first entry and the week
window the second or else the first, and an empty entry set carries an
explanatory note instead of an error. -/
theorem antigravity_quota_normalization
    (parse_rfc3339 : String → Option Int)
    (data : FetchAvailableModelsResponse) :
    ∃ q, fetch_antigravity_quota parse_rfc3339 (.success data) = .ok q ∧
      ∃ entries, q.entries = some entries ∧
        (∀ e ∈ entries, ∃ name model quota,
          (name, model) ∈ data.models ∧ model.quota_info = some quota ∧
          e.label = name ∧
          e.used_percent = (1 - quota.remaining_fraction) * 100) ∧
        List.Pairwise quota_label_le entries ∧
        q.session_used_percent =
          ((entries.head?.map (fun e => e.used_percent)).getD 0) ∧
        q.session_reset_at = entries.head?.bind (fun e => e.reset_at) ∧
        q.week_used_percent =
          (((entries[1]?.or entries.head?).map
            (fun e => e.used_percent)).getD 0) ∧
        q.week_reset_at = (entries[1]?.or entries.head?).bind
          (fun e => e.reset_at) ∧
        (entries = [] →
          q.note = some "No quota data returned for this project.") ∧
        (entries ≠ [] → q.note = none) := by
  refine ⟨_, rfl, _, rfl, ?_, ?_, rfl, rfl, rfl, rfl, ?_, ?_⟩
  · intro e he
    rw [List.Perm.mem_iff (List.perm_insertionSort _ _)] at he
    rw [List.mem_filterMap] at he
    obtain ⟨nm, hnm, hf⟩ := he
    rw [Option.map_eq_some'] at hf
    obtain ⟨quota, hq, hentry⟩ := hf
    exact ⟨nm.1, nm.2, quota, by simpa using hnm, hq,
      by rw [← hentry], by rw [← hentry]⟩
  · exact List.sorted_insertionSort quota_label_le _
  · intro h
    rw [h]
    rfl
  · intro h
    cases hl : List.insertionSort quota_label_le
        (data.models.filterMap fun nm =>
          nm.2.quota_info.map fun quota =>
            { label := nm.1
              used_percent := (1 - quota.remaining_fraction) * 100
              reset_at := quota.reset_time.bind parse_rfc3339 }) with
    | nil => exact absurd hl h
    | cons a l => simp [hl]

/-- Witness for the C9 theorem at a concrete model listing. -/
theorem antigravity_quota_normalization_witness :
    ∃ q, fetch_antigravity_quota (fun _ => none)
        (.success exModelsData) = .ok q ∧
      q.note = none ∧ q.session_used_percent = 75 ∧
      q.week_used_percent = 50 := by
  obtain ⟨q, hq, entries, hent, -, -, -, -, -, -, -, hn2⟩ :=
    antigravity_quota_normalization (fun _ => none) exModelsData
  have heval : fetch_antigravity_quota (fun _ => none)
      (.success exModelsData) =
      .ok { plan_type := some "Antigravity"
            limit_reached := none
            session_used_percent := 75
            session_reset_at := none
            week_used_percent := 50
            week_reset_at := none
            entries := some [⟨"model-a", 75, none⟩, ⟨"model-b", 50, none⟩]
            note := none } := by
    have hba : ¬(('b' : Char) = 'a' ∨ ('b' : Char) < 'a') := by decide
    have hab : (('a' : Char) = 'b' ∨ ('a' : Char) < 'b') := by decide
    norm_num [fetch_antigravity_quota, exModelsData, List.filterMap,
      List.insertionSort, List.orderedInsert, quota_label_le, str_le_b,
      hba, hab]
  rw [heval] at hq
  injection hq with hq'
  subst hq'
  have hents : entries = [⟨"model-a", 75, none⟩, ⟨"model-b", 50, none⟩] :=
    by simpa using hent.symm
  exact ⟨_, heval, hn2 (by rw [hents]; simp), rfl, rfl⟩

end VibeMate
